import Mathlib

/-! The network socket API types (`features/netsocket/nsapi_types.h`).

A shallow embedding of the data model declared by `nsapi_types.h`: the
standardized error codes, the size constants, the versioned IP address, the
WiFi access point descriptor and the integer types of the transfer
operations of the stack operation table, followed by the properties of that
data model.

C enumerations are embedded as inductive types together with the integer
value the C compiler assigns to every enumerator; C integer objects are
embedded as `Nat`/`Int` with the reduction modulo `2^32` written out.

The header holds declarations only. The operations it leaves to other files
(the result of a transfer, the comparison of addresses, the text formatting,
the option operations of a concrete stack) are modelled from the
specification, and every such definition says so.
-/

namespace Nsapi

/-! ## Error codes -/

/-- Enum of standardized error codes (`enum nsapi_error`, lines 37-51). -/
inductive nsapi_error_t where
  | NSAPI_ERROR_OK
  | NSAPI_ERROR_WOULD_BLOCK
  | NSAPI_ERROR_UNSUPPORTED
  | NSAPI_ERROR_PARAMETER
  | NSAPI_ERROR_NO_CONNECTION
  | NSAPI_ERROR_NO_SOCKET
  | NSAPI_ERROR_NO_ADDRESS
  | NSAPI_ERROR_NO_MEMORY
  | NSAPI_ERROR_NO_SSID
  | NSAPI_ERROR_DNS_FAILURE
  | NSAPI_ERROR_DHCP_FAILURE
  | NSAPI_ERROR_AUTH_FAILURE
  | NSAPI_ERROR_DEVICE_ERROR
  deriving DecidableEq, Repr

open nsapi_error_t

/-- The integer value of every enumerator of `nsapi_error_t`, as written in
the enumeration. -/
def nsapi_error_t.toInt : nsapi_error_t → Int
  | NSAPI_ERROR_OK            => 0
  | NSAPI_ERROR_WOULD_BLOCK   => -3001
  | NSAPI_ERROR_UNSUPPORTED   => -3002
  | NSAPI_ERROR_PARAMETER     => -3003
  | NSAPI_ERROR_NO_CONNECTION => -3004
  | NSAPI_ERROR_NO_SOCKET     => -3005
  | NSAPI_ERROR_NO_ADDRESS    => -3006
  | NSAPI_ERROR_NO_MEMORY     => -3007
  | NSAPI_ERROR_NO_SSID       => -3008
  | NSAPI_ERROR_DNS_FAILURE   => -3009
  | NSAPI_ERROR_DHCP_FAILURE  => -3010
  | NSAPI_ERROR_AUTH_FAILURE  => -3011
  | NSAPI_ERROR_DEVICE_ERROR  => -3012

/-- All enumerators of `nsapi_error_t`, in declaration order. -/
def nsapi_error_all : List nsapi_error_t :=
  [NSAPI_ERROR_OK, NSAPI_ERROR_WOULD_BLOCK, NSAPI_ERROR_UNSUPPORTED,
   NSAPI_ERROR_PARAMETER, NSAPI_ERROR_NO_CONNECTION, NSAPI_ERROR_NO_SOCKET,
   NSAPI_ERROR_NO_ADDRESS, NSAPI_ERROR_NO_MEMORY, NSAPI_ERROR_NO_SSID,
   NSAPI_ERROR_DNS_FAILURE, NSAPI_ERROR_DHCP_FAILURE, NSAPI_ERROR_AUTH_FAILURE,
   NSAPI_ERROR_DEVICE_ERROR]

/-! ## Integer types of the transfer operations

`socket_send`, `socket_recv`, `socket_sendto` and `socket_recvfrom` are
declared as `int (*)(..., unsigned size)`: the buffer size is an `unsigned`
and the result, "number of sent/received bytes on success, negative error
code on failure", is an `int`. -/

/-- Largest value of the 32-bit `unsigned` parameter `size`. -/
def UINT_MAX : Nat := 2 ^ 32 - 1

/-- Largest value of the 32-bit `int` return type. -/
def INT_MAX : Int := 2 ^ 31 - 1

/-- Smallest value of the 32-bit `int` return type. -/
def INT_MIN : Int := -(2 ^ 31)

/-- The values of the 32-bit `int` return type: the integers from `INT_MIN`
to `INT_MAX`. -/
def int_value (r : Int) : Prop := INT_MIN ≤ r ∧ r ≤ INT_MAX

instance (r : Int) : Decidable (int_value r) := by
  unfold int_value; infer_instance

/-- Modelled from the spec: the value a successful `socket_send` /
`socket_recv` / `socket_sendto` / `socket_recvfrom` reports, which this
header declares as function pointers only. "On success, the return value is
the number of bytes actually transferred, which may be less than requested".
The call is asked for `size` bytes, an `unsigned`, and transfers `n` of them;
its result is an `int`: the count itself where `int` has that value, and no
result is the count where `int` has no such value. -/
def socket_transfer_return (size n : Nat) : Option Int :=
  if n ≤ size ∧ size ≤ UINT_MAX ∧ int_value (n : Int) then some (n : Int) else none

/-! ## Size constants (lines 67-97) -/

/-- Maximum size of MAC address representation. -/
abbrev NSAPI_MAC_SIZE : Nat := 18

/-- Maximum number of bytes for MAC address. -/
abbrev NSAPI_MAC_BYTES : Nat := 6

/-- Size of IPv4 representation. -/
abbrev NSAPI_IPv4_SIZE : Nat := 16

/-- Number of bytes in IPv4 address. -/
abbrev NSAPI_IPv4_BYTES : Nat := 4

/-- Size of IPv6 representation. -/
abbrev NSAPI_IPv6_SIZE : Nat := 40

/-- Number of bytes in IPv6 address. -/
abbrev NSAPI_IPv6_BYTES : Nat := 16

/-- Maximum size of IP address representation (`#define NSAPI_IP_SIZE NSAPI_IPv6_SIZE`). -/
abbrev NSAPI_IP_SIZE : Nat := NSAPI_IPv6_SIZE

/-- Maximum number of bytes for IP address (`#define NSAPI_IP_BYTES NSAPI_IPv6_BYTES`). -/
abbrev NSAPI_IP_BYTES : Nat := NSAPI_IPv6_BYTES

/-! ## IP addresses (lines 99-123) -/

/-- Enum of IP address versions (`enum nsapi_version`). -/
inductive nsapi_version_t where
  | NSAPI_IPv4
  | NSAPI_IPv6
  | NSAPI_UNSPEC
  deriving DecidableEq, Repr

open nsapi_version_t

/-- The integer value of every enumerator of `nsapi_version_t`: the
enumeration gives no explicit values, so they count up from zero in
declaration order. -/
def nsapi_version_t.toNat : nsapi_version_t → Nat
  | NSAPI_IPv4   => 0
  | NSAPI_IPv6   => 1
  | NSAPI_UNSPEC => 2

/-- The number of address bytes of an address of the given version:
`NSAPI_IPv4_BYTES`, `NSAPI_IPv6_BYTES`, and none for an unspecified address. -/
def nsapi_version_t.addr_bytes : nsapi_version_t → Nat
  | NSAPI_IPv4   => NSAPI_IPv4_BYTES
  | NSAPI_IPv6   => NSAPI_IPv6_BYTES
  | NSAPI_UNSPEC => 0

/-- The size of the text representation of an address of the given version,
terminator included: `NSAPI_IPv4_SIZE`, `NSAPI_IPv6_SIZE`, and none for an
unspecified address. -/
def nsapi_version_t.text_size : nsapi_version_t → Nat
  | NSAPI_IPv4   => NSAPI_IPv4_SIZE
  | NSAPI_IPv6   => NSAPI_IPv6_SIZE
  | NSAPI_UNSPEC => 0

/-- IP address structure for passing IP addresses by value
(`struct nsapi_addr`): the version and `uint8_t bytes[NSAPI_IP_BYTES]`, the
raw bytes of the address in big-endian format. -/
structure nsapi_addr_t where
  version : nsapi_version_t
  bytes : Fin NSAPI_IP_BYTES → Fin 256

/-- An address is zeroed when every byte of the object is zero: the integer
value of its version field is zero and each of its address bytes is zero. -/
def nsapi_addr_t.is_zeroed (a : nsapi_addr_t) : Prop :=
  a.version.toNat = 0 ∧ ∀ i : Fin NSAPI_IP_BYTES, a.bytes i = 0

instance (a : nsapi_addr_t) : Decidable a.is_zeroed := by
  unfold nsapi_addr_t.is_zeroed; infer_instance

/-! ## WiFi access point (lines 170-180) -/

/-- Longest possible network name ("32 is what 802.11 defines as longest
possible name"). -/
def SSID_MAX_LEN : Nat := 32

/-- Number of elements of the field `char ssid[33]` of `nsapi_wifi_ap_t`. -/
def nsapi_wifi_ap_ssid_size : Nat := 33

/-- Number of elements of the field `uint8_t bssid[6]` of `nsapi_wifi_ap_t`. -/
def nsapi_wifi_ap_bssid_size : Nat := 6

/-- Enum of encryption types (`enum nsapi_security`). -/
inductive nsapi_security_t where
  | NSAPI_SECURITY_NONE
  | NSAPI_SECURITY_WEP
  | NSAPI_SECURITY_WPA
  | NSAPI_SECURITY_WPA2
  | NSAPI_SECURITY_WPA_WPA2
  | NSAPI_SECURITY_UNKNOWN
  deriving DecidableEq, Repr

/-- The integer value of every enumerator of `nsapi_security_t`, as written
in the enumeration (`0x0` to `0x4`, and `0xFF`). -/
def nsapi_security_t.toNat : nsapi_security_t → Nat
  | .NSAPI_SECURITY_NONE     => 0x0
  | .NSAPI_SECURITY_WEP      => 0x1
  | .NSAPI_SECURITY_WPA      => 0x2
  | .NSAPI_SECURITY_WPA2     => 0x3
  | .NSAPI_SECURITY_WPA_WPA2 => 0x4
  | .NSAPI_SECURITY_UNKNOWN  => 0xFF

/-- The values of an `int8_t` object: the integers from -128 to 127. -/
abbrev int8_t := { r : Int // -128 ≤ r ∧ r ≤ 127 }

/-- Structure representing a WiFi Access Point (`struct nsapi_wifi_ap`):
`char ssid[33]`, `uint8_t bssid[6]`, the security type, `int8_t rssi` and
`uint8_t channel`. -/
structure nsapi_wifi_ap_t where
  ssid : Fin nsapi_wifi_ap_ssid_size → Fin 256
  bssid : Fin nsapi_wifi_ap_bssid_size → Fin 256
  security : nsapi_security_t
  rssi : int8_t
  channel : Fin 256

/-! ## Comparison of addresses -/

/-- Modelled from the spec: the comparison of two addresses, which this
header declares no function for. "Comparison/equality must consider both
version and the version-appropriate byte prefix only"; "an address tagged
Unspecified carries no meaningful byte content". The bytes are compared
over the first `n` positions, the way `memcmp` does. -/
def bytes_equal (n : Nat) (x y : Fin NSAPI_IP_BYTES → Fin 256) : Bool :=
  (List.finRange NSAPI_IP_BYTES).all fun i => !decide (i.val < n) || x i == y i

/-- Modelled from the spec: equality of two addresses, which this header
declares no function for: the versions agree and so do the address bytes the
version gives a meaning to. -/
def nsapi_addr_equal (a b : nsapi_addr_t) : Bool :=
  a.version == b.version && bytes_equal a.version.addr_bytes a.bytes b.bytes

/-! ## Option negotiation

The operation table declares `setstackopt`, `getstackopt`, `setsockopt` and
`getsockopt` as function pointers a concrete stack fills in; the header holds
their contract and no implementation. -/

/-- Opaque handle for network sockets (`typedef void *nsapi_socket_t`). -/
abbrev nsapi_socket_t := Nat

/-- Modelled from the spec: the values of the options of one stack or of one
socket, by level and option identifier. -/
abbrev nsapi_opt_values := Int → Int → List (Fin 256)

/-- Modelled from the spec: a concrete stack, which this header declares the
operation table of and no implementation: the options it implements, by
`(level, optname)`, each with the expected size of its value, the values of
its stack options, and its live sockets, each with the values of its socket
options. -/
structure nsapi_stack_model where
  implemented : Int → Int → Option Nat
  stack_values : nsapi_opt_values
  sockets : nsapi_socket_t → Option nsapi_opt_values

/-- Modelled from the spec: the uniform set step of the option protocol, "callee
either applies the value and returns success, or returns an unsupported error
leaving state untouched, or returns a parameter error if the buffer length is
incompatible with the option's expected size". -/
def opt_set (implemented : Int → Int → Option Nat) (values : nsapi_opt_values)
    (level optname : Int) (optval : List (Fin 256)) (optlen : Nat) : Int × nsapi_opt_values :=
  match implemented level optname with
  | none => (NSAPI_ERROR_UNSUPPORTED.toInt, values)
  | some size =>
    if optlen = size ∧ optlen ≤ optval.length then
      (NSAPI_ERROR_OK.toInt,
        fun l n => if l = level ∧ n = optname then optval.take optlen else values l n)
    else
      (NSAPI_ERROR_PARAMETER.toInt, values)

/-- Modelled from the spec: the uniform get step of the option protocol, "callee
either reads the value and returns success, or returns an unsupported error
leaving the buffer untouched, or returns a parameter error if the buffer
length is incompatible with the option's expected size"; "get-operations
update the length to reflect bytes actually written on success, unmodified
on failure". The result is the return value, the buffer `optval` and the
length `*optlen` after the call. -/
def opt_get (implemented : Int → Int → Option Nat) (values : nsapi_opt_values)
    (level optname : Int) (optval : List (Fin 256)) (optlen : Nat) :
    Int × List (Fin 256) × Nat :=
  match implemented level optname with
  | none => (NSAPI_ERROR_UNSUPPORTED.toInt, optval, optlen)
  | some size =>
    if size ≤ optlen ∧ optlen ≤ optval.length then
      let written := ((values level optname).take size)
      (NSAPI_ERROR_OK.toInt, written ++ optval.drop written.length, written.length)
    else
      (NSAPI_ERROR_PARAMETER.toInt, optval, optlen)

/-- Modelled from the spec: `setstackopt` of a concrete stack, which this
header declares as a function pointer only. The result is the return value
and the stack after the call. -/
def setstackopt (s : nsapi_stack_model) (level optname : Int)
    (optval : List (Fin 256)) (optlen : Nat) : Int × nsapi_stack_model :=
  let r := opt_set s.implemented s.stack_values level optname optval optlen
  (r.1, { s with stack_values := r.2 })

/-- Modelled from the spec: `getstackopt` of a concrete stack, which this
header declares as a function pointer only. -/
def getstackopt (s : nsapi_stack_model) (level optname : Int)
    (optval : List (Fin 256)) (optlen : Nat) : Int × List (Fin 256) × Nat :=
  opt_get s.implemented s.stack_values level optname optval optlen

/-- Modelled from the spec: `setsockopt` of a concrete stack, which this
header declares as a function pointer only; it "requires a live socket
handle", and a handle that is not live is "rejected with a no socket error". -/
def setsockopt (s : nsapi_stack_model) (socket : nsapi_socket_t) (level optname : Int)
    (optval : List (Fin 256)) (optlen : Nat) : Int × nsapi_stack_model :=
  match s.sockets socket with
  | none => (NSAPI_ERROR_NO_SOCKET.toInt, s)
  | some values =>
    let r := opt_set s.implemented values level optname optval optlen
    (r.1, { s with sockets := fun h => if h = socket then some r.2 else s.sockets h })

/-- Modelled from the spec: `getsockopt` of a concrete stack, which this
header declares as a function pointer only; it "requires a live socket
handle", and a handle that is not live is "rejected with a no socket error". -/
def getsockopt (s : nsapi_stack_model) (socket : nsapi_socket_t) (level optname : Int)
    (optval : List (Fin 256)) (optlen : Nat) : Int × List (Fin 256) × Nat :=
  match s.sockets socket with
  | none => (NSAPI_ERROR_NO_SOCKET.toInt, optval, optlen)
  | some values => opt_get s.implemented values level optname optval optlen

/-- Modelled from the spec: a stack that implements the one option
`(1, 0)`, of size 4, and has the one live socket `7`. -/
def example_stack : nsapi_stack_model where
  implemented := fun level optname => if level = 1 ∧ optname = 0 then some 4 else none
  stack_values := fun _ _ => []
  sockets := fun h => if h = 7 then some (fun _ _ => []) else none

/-! ## Text representations

The header sizes the buffers of the text representations (`NSAPI_IPv4_SIZE`,
`NSAPI_IPv6_SIZE`, `NSAPI_MAC_SIZE`) and leaves the formatting to its users. -/

/-- Modelled from the spec: the dotted-decimal text of an IPv4 address, which
this header declares no function for: the four bytes in decimal without
leading zeros, separated by dots. -/
def ipv4_text (b : Fin NSAPI_IPv4_BYTES → Fin 256) : List Char :=
  List.intercalate ['.'] ((List.ofFn b).map fun x => Nat.toDigits 10 x.val)

/-- Modelled from the spec: the two hexadecimal digits of a byte, the unit
of the hexadecimal text representations below. -/
def hex_pair (x : Fin 256) : List Char :=
  [Nat.digitChar (x.val / 16), Nat.digitChar (x.val % 16)]

/-- Modelled from the spec: the full uncompressed text of an IPv6 address,
which this header declares no function for: eight groups of four hexadecimal
digits, two bytes each, separated by colons. -/
def ipv6_text (b : Fin NSAPI_IPv6_BYTES → Fin 256) : List Char :=
  List.intercalate [':'] ((List.finRange 8).map fun g =>
    hex_pair (b ⟨2 * g.val, by unfold NSAPI_IPv6_BYTES; omega⟩) ++
    hex_pair (b ⟨2 * g.val + 1, by unfold NSAPI_IPv6_BYTES; omega⟩))

/-- Modelled from the spec: the text of a MAC address, which this header
declares no function for: six pairs of hexadecimal digits, one byte each,
separated by colons. -/
def mac_text (b : Fin NSAPI_MAC_BYTES → Fin 256) : List Char :=
  List.intercalate [':'] ((List.ofFn b).map hex_pair)

/-- Modelled from the spec: the buffer size a text needs, its characters
plus one terminator. -/
def text_buffer_size (t : List Char) : Nat := t.length + 1

/-! ## Properties of the error codes -/

/-- C1: every standardized error code other than `NSAPI_ERROR_OK` is a
negative integer: it is below zero, it differs from the success value `0`
(`NSAPI_ERROR_OK`), and it differs from every positive byte count. -/
theorem error_code_negative (e : nsapi_error_t) (h : e ≠ NSAPI_ERROR_OK) :
    e.toInt < 0 ∧ e.toInt ≠ 0 ∧ e.toInt ≠ NSAPI_ERROR_OK.toInt ∧
      ∀ n : Int, 0 < n → e.toInt ≠ n := by
  have hneg : e.toInt < 0 := by
    cases e <;> first | exact absurd rfl h | decide
  refine ⟨hneg, by omega, ?_, ?_⟩
  · show e.toInt ≠ 0
    omega
  · intro n hn
    omega

/-- C1 at `NSAPI_ERROR_DEVICE_ERROR`, the code furthest from zero. -/
theorem error_code_negative_witness :
    NSAPI_ERROR_DEVICE_ERROR.toInt < 0 ∧ NSAPI_ERROR_DEVICE_ERROR.toInt ≠ 0 ∧
      NSAPI_ERROR_DEVICE_ERROR.toInt ≠ NSAPI_ERROR_OK.toInt ∧
      ∀ n : Int, 0 < n → NSAPI_ERROR_DEVICE_ERROR.toInt ≠ n :=
  error_code_negative NSAPI_ERROR_DEVICE_ERROR (by decide)

/-- Every error code other than `NSAPI_ERROR_OK` lies in `[-3012, -3001]`. -/
theorem error_code_range (e : nsapi_error_t) (h : e ≠ NSAPI_ERROR_OK) :
    -3012 ≤ e.toInt ∧ e.toInt ≤ -3001 := by
  cases e <;> first | exact absurd rfl h | decide

/-- C3: the thirteen values of `nsapi_error_t` are pairwise distinct
integers; in particular `NSAPI_ERROR_UNSUPPORTED` differs from
`NSAPI_ERROR_PARAMETER`, and `NSAPI_ERROR_WOULD_BLOCK` differs from every
other code. -/
theorem error_codes_distinct :
    nsapi_error_all.length = 13 ∧ (∀ e : nsapi_error_t, e ∈ nsapi_error_all) ∧
      (nsapi_error_all.map nsapi_error_t.toInt).Pairwise (fun x y => x ≠ y) ∧
      Function.Injective nsapi_error_t.toInt ∧
      NSAPI_ERROR_UNSUPPORTED.toInt ≠ NSAPI_ERROR_PARAMETER.toInt ∧
      ∀ e : nsapi_error_t, e ≠ NSAPI_ERROR_WOULD_BLOCK →
        e.toInt ≠ NSAPI_ERROR_WOULD_BLOCK.toInt := by
  have hinj : Function.Injective nsapi_error_t.toInt := by
    intro a b hab
    cases a <;> cases b <;> first | rfl | exact absurd hab (by decide)
  refine ⟨rfl, ?_, by decide, hinj, by decide, ?_⟩
  · intro e
    cases e <;> decide
  · intro e he hval
    exact he (hinj hval)

/-! ## Properties of the addresses -/

/-- C4, the claim as stated fails: the address whose version field and all
16 bytes are zero is tagged `NSAPI_IPv4`, not `NSAPI_UNSPEC`, and the address
tagged `NSAPI_UNSPEC` with all 16 bytes zero is not zeroed, its version field
being 2. -/
theorem zeroed_addr_not_unspec :
    (nsapi_addr_t.mk NSAPI_IPv4 (fun _ => 0)).is_zeroed ∧
      (nsapi_addr_t.mk NSAPI_IPv4 (fun _ => 0)).version ≠ NSAPI_UNSPEC ∧
      NSAPI_UNSPEC.toNat = 2 ∧
      ¬ (nsapi_addr_t.mk NSAPI_UNSPEC (fun _ => 0)).is_zeroed := by
  refine ⟨⟨rfl, fun _ => rfl⟩, by decide, rfl, ?_⟩
  intro h
  exact absurd h.1 (by decide)

/-- C4, amended: the address whose version field and all 16 bytes are zero is
tagged `NSAPI_IPv4` (it is the IPv4 address 0.0.0.0), and it differs from
every address tagged `NSAPI_UNSPEC`. -/
theorem zeroed_addr_is_ipv4 (a : nsapi_addr_t) (h : a.is_zeroed) :
    a.version = NSAPI_IPv4 ∧ a = nsapi_addr_t.mk NSAPI_IPv4 (fun _ => 0) ∧
      ∀ u : nsapi_addr_t, u.version = NSAPI_UNSPEC → a ≠ u := by
  obtain ⟨version, bytes⟩ := a
  obtain ⟨hv, hb⟩ := h
  have hv0 : version.toNat = 0 := hv
  have hver : version = NSAPI_IPv4 := by
    cases version
    · rfl
    · exact absurd hv0 (by decide)
    · exact absurd hv0 (by decide)
  subst hver
  refine ⟨rfl, ?_, ?_⟩
  · have : bytes = fun _ => 0 := funext hb
    rw [this]
  · intro u hu heq
    subst heq
    cases hu

/-- C4, amended, at the address with a zero version field and zero bytes. -/
theorem zeroed_addr_is_ipv4_witness :
    (nsapi_addr_t.mk NSAPI_IPv4 (fun _ => 0)).version = NSAPI_IPv4 ∧
      nsapi_addr_t.mk NSAPI_IPv4 (fun _ => 0) = nsapi_addr_t.mk NSAPI_IPv4 (fun _ => 0) ∧
      ∀ u : nsapi_addr_t, u.version = NSAPI_UNSPEC →
        nsapi_addr_t.mk NSAPI_IPv4 (fun _ => 0) ≠ u :=
  zeroed_addr_is_ipv4 (nsapi_addr_t.mk NSAPI_IPv4 (fun _ => 0)) ⟨rfl, fun _ => rfl⟩

/-- The first `n` bytes of two byte arrays compare equal exactly when the
arrays agree at every position below `n`. -/
theorem bytes_equal_iff (n : Nat) (x y : Fin NSAPI_IP_BYTES → Fin 256) :
    bytes_equal n x y = true ↔ ∀ i : Fin NSAPI_IP_BYTES, i.val < n → x i = y i := by
  unfold bytes_equal
  simp only [List.all_eq_true, List.mem_finRange, true_implies, Bool.or_eq_true,
    Bool.not_eq_true', decide_eq_false_iff_not, beq_iff_eq]
  constructor
  · intro h i hi
    rcases h i with h | h
    · exact absurd hi h
    · exact h
  · intro h i
    by_cases hi : i.val < n
    · exact Or.inr (h i hi)
    · exact Or.inl hi

/-- C5: an address of version `NSAPI_IPv4` and an address of version
`NSAPI_IPv6` are never equal, whatever their byte arrays are: the comparison
of the two reports them unequal in either order, and they differ as values. -/
theorem ipv4_ne_ipv6 (a b : nsapi_addr_t) (ha : a.version = NSAPI_IPv4)
    (hb : b.version = NSAPI_IPv6) :
    nsapi_addr_equal a b = false ∧ nsapi_addr_equal b a = false ∧ a ≠ b := by
  refine ⟨?_, ?_, ?_⟩
  · unfold nsapi_addr_equal
    rw [ha, hb]
    rfl
  · unfold nsapi_addr_equal
    rw [ha, hb]
    rfl
  · intro hab
    rw [hab, hb] at ha
    exact absurd ha (by decide)

/-- C5 at two addresses whose 16 bytes are identical. -/
theorem ipv4_ne_ipv6_witness :
    nsapi_addr_equal (nsapi_addr_t.mk NSAPI_IPv4 (fun _ => 7))
        (nsapi_addr_t.mk NSAPI_IPv6 (fun _ => 7)) = false ∧
      nsapi_addr_equal (nsapi_addr_t.mk NSAPI_IPv6 (fun _ => 7))
        (nsapi_addr_t.mk NSAPI_IPv4 (fun _ => 7)) = false ∧
      nsapi_addr_t.mk NSAPI_IPv4 (fun _ => 7) ≠ nsapi_addr_t.mk NSAPI_IPv6 (fun _ => 7) :=
  ipv4_ne_ipv6 (nsapi_addr_t.mk NSAPI_IPv4 (fun _ => 7)) (nsapi_addr_t.mk NSAPI_IPv6 (fun _ => 7))
    rfl rfl

/-- C6: equality of addresses depends only on the version and the bytes the
version gives a meaning to: two addresses of the same version are equal if
and only if their first 4 bytes agree (version `NSAPI_IPv4`) or all 16 bytes
agree (version `NSAPI_IPv6`), and bytes 4..15 of an IPv4 address never affect
the comparison. -/
theorem addr_equal_by_version (a b : nsapi_addr_t) (hv : a.version = b.version) :
    (a.version = NSAPI_IPv4 →
      (nsapi_addr_equal a b = true ↔
        ∀ i : Fin NSAPI_IP_BYTES, i.val < NSAPI_IPv4_BYTES → a.bytes i = b.bytes i)) ∧
    (a.version = NSAPI_IPv6 →
      (nsapi_addr_equal a b = true ↔ ∀ i : Fin NSAPI_IP_BYTES, a.bytes i = b.bytes i)) ∧
    (a.version = NSAPI_IPv4 → ∀ tail : Fin NSAPI_IP_BYTES → Fin 256,
      nsapi_addr_equal
          (nsapi_addr_t.mk NSAPI_IPv4
            (fun i => if i.val < NSAPI_IPv4_BYTES then a.bytes i else tail i)) b
        = nsapi_addr_equal a b) := by
  have hbeq : (a.version == b.version) = true := by
    rw [hv]
    exact beq_self_eq_true b.version
  refine ⟨?_, ?_, ?_⟩
  · intro h4
    unfold nsapi_addr_equal
    rw [hbeq, Bool.true_and, bytes_equal_iff, h4]
    exact Iff.rfl
  · intro h6
    unfold nsapi_addr_equal
    rw [hbeq, Bool.true_and, bytes_equal_iff, h6]
    constructor
    · intro h i
      exact h i i.isLt
    · intro h i _
      exact h i
  · intro h4 tail
    have hb4 : (NSAPI_IPv4 == b.version) = true := by
      rw [← hv, h4]
      rfl
    unfold nsapi_addr_equal
    rw [hbeq, h4]
    show (NSAPI_IPv4 == b.version && _) = _
    rw [hb4, Bool.true_and, Bool.true_and, Bool.eq_iff_iff, bytes_equal_iff, bytes_equal_iff]
    constructor
    · intro h i hi
      have hi4 : i.val < NSAPI_IPv4_BYTES := hi
      have hstep : (if i.val < NSAPI_IPv4_BYTES then a.bytes i else tail i) = b.bytes i :=
        h i hi
      rw [if_pos hi4] at hstep
      exact hstep
    · intro h i hi
      have hi4 : i.val < NSAPI_IPv4_BYTES := hi
      show (if i.val < NSAPI_IPv4_BYTES then a.bytes i else tail i) = b.bytes i
      rw [if_pos hi4]
      exact h i hi

/-- C6 at the IPv4 address 192.0.2.1 held once with bytes 4..15 all `0` and
once with bytes 4..15 all `255`: the two compare equal. -/
theorem addr_equal_by_version_witness :
    (nsapi_addr_equal
        (nsapi_addr_t.mk NSAPI_IPv4 (fun i => [192, 0, 2, 1].getD i.val 0))
        (nsapi_addr_t.mk NSAPI_IPv4 (fun i => [192, 0, 2, 1].getD i.val 255)) = true ↔
      ∀ i : Fin NSAPI_IP_BYTES, i.val < NSAPI_IPv4_BYTES →
        [192, 0, 2, 1].getD i.val (0 : Fin 256) = [192, 0, 2, 1].getD i.val 255) ∧
    nsapi_addr_equal
        (nsapi_addr_t.mk NSAPI_IPv4 (fun i => [192, 0, 2, 1].getD i.val 0))
        (nsapi_addr_t.mk NSAPI_IPv4 (fun i => [192, 0, 2, 1].getD i.val 255)) = true :=
  ⟨(addr_equal_by_version
      (nsapi_addr_t.mk NSAPI_IPv4 (fun i => [192, 0, 2, 1].getD i.val 0))
      (nsapi_addr_t.mk NSAPI_IPv4 (fun i => [192, 0, 2, 1].getD i.val 255)) rfl).1 rfl,
    by decide⟩

/-! ## Properties of the size constants -/

/-- C7: the byte buffer of an IP address is sized for the larger of the two
address families, `NSAPI_IP_BYTES = max NSAPI_IPv4_BYTES NSAPI_IPv6_BYTES =
16`, likewise `NSAPI_IP_SIZE = max NSAPI_IPv4_SIZE NSAPI_IPv6_SIZE`, so the
`bytes` field holds the full address of every version. -/
theorem ip_buffer_fits_every_version :
    NSAPI_IP_BYTES = max NSAPI_IPv4_BYTES NSAPI_IPv6_BYTES ∧ NSAPI_IP_BYTES = 16 ∧
      NSAPI_IP_SIZE = max NSAPI_IPv4_SIZE NSAPI_IPv6_SIZE ∧
      (∀ v : nsapi_version_t, v.addr_bytes ≤ NSAPI_IP_BYTES) ∧
      (∀ v : nsapi_version_t, v.text_size ≤ NSAPI_IP_SIZE) := by
  refine ⟨by decide, rfl, by decide, ?_, ?_⟩
  · intro v
    cases v <;> decide
  · intro v
    cases v <;> decide

/-- C8: the `ssid` field of `nsapi_wifi_ap_t` is exactly 33 bytes, the
32-character maximum SSID plus one terminator, so every SSID of at most 32
characters fits with its terminator; the `bssid` field is exactly 6 bytes,
equal to `NSAPI_MAC_BYTES`. -/
theorem wifi_ap_field_sizes :
    nsapi_wifi_ap_ssid_size = 33 ∧ nsapi_wifi_ap_ssid_size = SSID_MAX_LEN + 1 ∧
      (∀ name : List (Fin 256), name.length ≤ SSID_MAX_LEN →
        name.length + 1 ≤ nsapi_wifi_ap_ssid_size) ∧
      nsapi_wifi_ap_bssid_size = 6 ∧ nsapi_wifi_ap_bssid_size = NSAPI_MAC_BYTES := by
  refine ⟨rfl, rfl, ?_, rfl, rfl⟩
  intro name h
  unfold SSID_MAX_LEN at h
  unfold nsapi_wifi_ap_ssid_size
  omega

/-! ## Properties of the option protocol -/

/-- C9: for every stack and every `(level, optname)` the stack does not
implement, `setstackopt` and `setsockopt` (on a live socket) return
`NSAPI_ERROR_UNSUPPORTED` and leave the stack unmodified, and `getstackopt`
and `getsockopt` (on a live socket) return `NSAPI_ERROR_UNSUPPORTED` and
leave `optval` and the length unmodified. -/
theorem unsupported_option_untouched (s : nsapi_stack_model) (level optname : Int)
    (h : s.implemented level optname = none) :
    (∀ (optval : List (Fin 256)) (optlen : Nat),
      setstackopt s level optname optval optlen = (NSAPI_ERROR_UNSUPPORTED.toInt, s)) ∧
    (∀ (optval : List (Fin 256)) (optlen : Nat),
      getstackopt s level optname optval optlen
        = (NSAPI_ERROR_UNSUPPORTED.toInt, optval, optlen)) ∧
    (∀ (socket : nsapi_socket_t) (optval : List (Fin 256)) (optlen : Nat),
      (s.sockets socket).isSome = true →
        setsockopt s socket level optname optval optlen
          = (NSAPI_ERROR_UNSUPPORTED.toInt, s)) ∧
    (∀ (socket : nsapi_socket_t) (optval : List (Fin 256)) (optlen : Nat),
      (s.sockets socket).isSome = true →
        getsockopt s socket level optname optval optlen
          = (NSAPI_ERROR_UNSUPPORTED.toInt, optval, optlen)) := by
  have hset : ∀ (values : nsapi_opt_values) (optval : List (Fin 256)) (optlen : Nat),
      opt_set s.implemented values level optname optval optlen
        = (NSAPI_ERROR_UNSUPPORTED.toInt, values) := by
    intro values optval optlen
    unfold opt_set
    rw [h]
  have hget : ∀ (values : nsapi_opt_values) (optval : List (Fin 256)) (optlen : Nat),
      opt_get s.implemented values level optname optval optlen
        = (NSAPI_ERROR_UNSUPPORTED.toInt, optval, optlen) := by
    intro values optval optlen
    unfold opt_get
    rw [h]
  refine ⟨?_, ?_, ?_, ?_⟩
  · intro optval optlen
    unfold setstackopt
    rw [hset]
  · intro optval optlen
    unfold getstackopt
    rw [hget]
  · intro socket optval optlen hlive
    unfold setsockopt
    cases hs : s.sockets socket with
    | none => rw [hs] at hlive; exact absurd hlive (by decide)
    | some values =>
      simp only [hset]
      have hsame : (fun h => if h = socket then some values else s.sockets h) = s.sockets := by
        funext k
        by_cases hk : k = socket
        · rw [if_pos hk, hk, hs]
        · rw [if_neg hk]
      rw [hsame]
  · intro socket optval optlen hlive
    unfold getsockopt
    cases hs : s.sockets socket with
    | none => rw [hs] at hlive; exact absurd hlive (by decide)
    | some values => exact hget values optval optlen

/-- C9 at `example_stack` and the option `(1, 5)`, which it does not
implement. -/
theorem unsupported_option_untouched_witness :
    (∀ (optval : List (Fin 256)) (optlen : Nat),
      setstackopt example_stack 1 5 optval optlen
        = (NSAPI_ERROR_UNSUPPORTED.toInt, example_stack)) ∧
    (∀ (optval : List (Fin 256)) (optlen : Nat),
      getstackopt example_stack 1 5 optval optlen
        = (NSAPI_ERROR_UNSUPPORTED.toInt, optval, optlen)) ∧
    (∀ (socket : nsapi_socket_t) (optval : List (Fin 256)) (optlen : Nat),
      (example_stack.sockets socket).isSome = true →
        setsockopt example_stack socket 1 5 optval optlen
          = (NSAPI_ERROR_UNSUPPORTED.toInt, example_stack)) ∧
    (∀ (socket : nsapi_socket_t) (optval : List (Fin 256)) (optlen : Nat),
      (example_stack.sockets socket).isSome = true →
        getsockopt example_stack socket 1 5 optval optlen
          = (NSAPI_ERROR_UNSUPPORTED.toInt, optval, optlen)) :=
  unsupported_option_untouched example_stack 1 5 (by decide)

/-! ## Properties of the text representations -/

/-- A byte has at most three decimal digits. -/
theorem digits_length_le (x : Fin 256) : (Nat.toDigits 10 x.val).length ≤ 3 := by
  set_option maxRecDepth 100000 in
  revert x; decide

/-- C10: every text size constant is large enough for the longest canonical
text of its address kind plus one terminator: the dotted-decimal text of
every IPv4 address plus 1 is at most `NSAPI_IPv4_SIZE`, with equality for
255.255.255.255; the full eight-group text of every IPv6 address has length
39, and 39 plus 1 is at most `NSAPI_IPv6_SIZE`; the six-pair text of every
MAC address has length 17, and 17 plus 1 equals `NSAPI_MAC_SIZE`. -/
theorem text_sizes_hold_longest_text :
    (∀ b : Fin NSAPI_IPv4_BYTES → Fin 256, text_buffer_size (ipv4_text b) ≤ NSAPI_IPv4_SIZE) ∧
    ipv4_text (fun _ => 255) = "255.255.255.255".toList ∧
    text_buffer_size (ipv4_text (fun _ => 255)) = NSAPI_IPv4_SIZE ∧
    (∀ b : Fin NSAPI_IPv6_BYTES → Fin 256,
      (ipv6_text b).length = 39 ∧ text_buffer_size (ipv6_text b) ≤ NSAPI_IPv6_SIZE) ∧
    (∀ b : Fin NSAPI_MAC_BYTES → Fin 256,
      (mac_text b).length = 17 ∧ text_buffer_size (mac_text b) = NSAPI_MAC_SIZE) := by
  refine ⟨?_, by decide, by decide, ?_, ?_⟩
  · intro b
    have h0 := digits_length_le (b 0)
    have h1 := digits_length_le (b 1)
    have h2 := digits_length_le (b 2)
    have h3 := digits_length_le (b 3)
    have hlist : List.ofFn b = [b 0, b 1, b 2, b 3] := by
      simp only [List.ofFn_succ, List.ofFn_zero]
      rfl
    unfold text_buffer_size ipv4_text
    rw [hlist]
    show (List.intercalate _ _).length + 1 ≤ 16
    simp [List.intercalate, List.intersperse]
    omega
  · intro b
    have hlen : (ipv6_text b).length = 39 := by
      unfold ipv6_text
      simp [List.finRange, List.intercalate, List.intersperse, hex_pair]
    refine ⟨hlen, ?_⟩
    unfold text_buffer_size
    rw [hlen]
  · intro b
    have hlist : List.ofFn b = [b 0, b 1, b 2, b 3, b 4, b 5] := by
      simp only [List.ofFn_succ, List.ofFn_zero]
      rfl
    have hlen : (mac_text b).length = 17 := by
      unfold mac_text
      rw [hlist]
      simp [List.intercalate, List.intersperse, hex_pair]
    refine ⟨hlen, ?_⟩
    unfold text_buffer_size
    rw [hlen]

end Nsapi
